import Mathlib

/-!
Shallow embedding of the SharePoint ingest connector
(`unstructured/ingest/connector/sharepoint.py`) and of the dropbox CLI command
(`unstructured/ingest/cli/cmds/dropbox.py`), together with theorems checking the
natural-language specification against the code.

Conventions of the embedding:
* Python strings are Lean `String`s; Python `None` is `Option.none`.
* A Python function that can raise is embedded as `Except String _`; the string
  is the exception message.  External SDK and filesystem effects are embedded as
  explicit oracle values describing what each call would do.
* Pieces of the repository that the connector uses but that are not part of the
  two source files (the `interfaces` module, the filetype table, the CLI common
  helpers) are modelled from the spec; each such definition carries a doc
  comment starting with "Modelled from the spec:".
-/

namespace Unstructured

/-- Modelled from the spec: the key set of `EXT_TO_FILETYPE` from
`unstructured/file_utils/filetype.py`, which is not under `src/`.  Spec section
4.5 describes it as the recognized extension set of the filetype resolution
helper; the recognized document categories include HTML pages (the connector
stores pages as `.html`), plain text, office and data formats.  The table also
carries a `None` key (the source filters it out when printing the error
message), embedded here as `Option.none`. -/
def EXT_TO_FILETYPE : List (Option String) :=
  [none, some ".html", some ".htm", some ".txt", some ".md", some ".pdf",
   some ".docx", some ".doc", some ".xlsx", some ".pptx", some ".ppt",
   some ".json", some ".xml", some ".eml", some ".csv", some ".rtf",
   some ".epub", some ".rst", some ".org", some ".png", some ".jpg"]

/-- Source line 22: `MAX_MB_SIZE = 512_000_000`. -/
def MAX_MB_SIZE : Nat := 512000000

/-- Chunk size used by the chunked download branch, source line 129:
`chunk_size=1024 * 1024 * 100`. -/
def CHUNK_SIZE : Nat := 1024 * 1024 * 100

/-- The part of `StandardConnectorConfig` (from `unstructured/ingest/interfaces.py`,
not under `src/`) that the SharePoint connector reads: the download and output
directories used by `_set_download_paths` (source lines 63 and 64). -/
structure StandardConnectorConfig where
  download_dir : String
  output_dir : String
deriving DecidableEq, Repr

/-- Embedding of the dataclass `SimpleSharepointConfig` (source lines 25 to 40):
field for field, with the source defaults for the three flags. -/
structure SimpleSharepointConfig where
  client_id : String
  client_credential : String
  site_url : String
  path : String
  process_all : Bool := false
  process_pages : Bool := false
  recursive : Bool := false
deriving DecidableEq, Repr

/-- Embedding of constructing a `SimpleSharepointConfig`, including
`__post_init__` (source lines 35 to 40): Python raises `ValueError` when
`not (client_id and client_credential and site_url)`, and an empty string is
falsy, so construction fails exactly when one of the three is empty.  On
success the dataclass holds exactly the given field values. -/
def mkSimpleSharepointConfig (client_id client_credential site_url path : String)
    (process_all process_pages recursive : Bool) : Except String SimpleSharepointConfig :=
  if client_id = "" ∨ client_credential = "" ∨ site_url = "" then
    Except.error ("Please provide one of the following mandatory values:" ++
      "\n-ms-client_id\n-ms-client_cred\n-ms-sharepoint-site")
  else
    Except.ok { client_id := client_id, client_credential := client_credential,
                site_url := site_url, path := path, process_all := process_all,
                process_pages := process_pages, recursive := recursive }

/-- `SimpleSharepointConfig` is declared with a plain `@dataclass` (source line
25), not with `frozen=True`, so Python permits attribute assignment on a
constructed instance.  This embeds the assignment `config.client_id = v`: it
succeeds and yields the updated, observable object. -/
def setattr_client_id (c : SimpleSharepointConfig) (v : String) : SimpleSharepointConfig :=
  { c with client_id := v }

/-- A SharePoint `File` object as the connector reads it: `name`
(source line 50), `serverRelativeUrl` (source line 72) and the `size` property
(source line 119, `get_property("size", 0)`, so a missing size reads as 0). -/
structure File where
  name : String
  serverRelativeUrl : String
  size : Nat
deriving DecidableEq, Repr

/-- The page metadata dict built by `_list_pages` (source line 205):
keys `"url"` and `"site_path"`. -/
structure PageMeta where
  url : String
  site_path : Option String
deriving DecidableEq, Repr

/-- Split a character list at every occurrence of a separator character. -/
def splitOnCharList (sep : Char) : List Char → List (List Char)
  | [] => [[]]
  | c :: rest =>
    let r := splitOnCharList sep rest
    if c == sep then [] :: r
    else
      match r with
      | [] => [[c]]
      | cur :: t => (c :: cur) :: t

/-- `String.splitOn` for a single-character separator, implemented by
structural recursion so that it evaluates definitionally. -/
def splitOnChar (sep : Char) (s : String) : List String :=
  (splitOnCharList sep s.data).map String.mk

/-- Final component of a path string (pathlib `Path(...).name`). -/
def pathName (p : String) : String := (splitOnChar '/' p).getLastD ""

/-- pathlib `Path(...).suffixes`: the dot-separated suffixes of the final
component, each with its leading dot, ignoring leading dots of the name. -/
def pathSuffixes (p : String) : List String :=
  let nm := String.mk ((pathName p).data.dropWhile (fun c => c == '.'))
  ((splitOnChar '.' nm).drop 1).map (fun s => "." ++ s)

/-- `"".join(Path(name).suffixes)` from source line 50. -/
def joinedSuffixes (p : String) : String := String.join (pathSuffixes p)

/-- pathlib `Path(...).with_suffix(suf)`: drop the last suffix (if any) and
append `suf`. -/
def withSuffix (p suf : String) : String :=
  p.dropRight ((pathSuffixes p).getLastD "").length ++ suf

/-- pathlib `Path(...).parent` rendered as a string: drop the last path
component; a single component has parent `"."`. -/
def pathParent (p : String) : String :=
  let parts := splitOnChar '/' p
  if parts.length ≤ 1 then "." else String.intercalate "/" parts.dropLast

/-- The extension assigned by `__post_init__`, source line 50:
`"".join(Path(self.file.name).suffixes) if self.meta is None else ".html"`. -/
def docExt (f : File) (meta : Option PageMeta) : String :=
  match meta with
  | none => joinedSuffixes f.name
  | some _ => ".html"

/-- Embedding of the dataclass `SharepointIngestDoc` (source lines 43 to 146)
after a successful `__post_init__`: the declared fields plus the attributes set
by `__post_init__` and `_set_download_paths`. -/
structure SharepointIngestDoc where
  standard_config : StandardConnectorConfig
  config : SimpleSharepointConfig
  file : File
  meta : Option PageMeta
  ext : String
  download_dir : String
  download_filepath : String
  output_dir : String
  output_filepath : String
deriving DecidableEq, Repr

/-- Embedding of `_set_download_paths` (source lines 61 to 77).  `Path.resolve()`
is treated as the identity: the directories of the standard config are taken to
be absolute and the joined paths contain no `..` segments. -/
def setDownloadPaths (std : StandardConnectorConfig) (cfg : SimpleSharepointConfig)
    (f : File) (meta : Option PageMeta) (ext : String) : SharepointIngestDoc :=
  let parent : String :=
    match meta with
    | some m =>
      match m.site_path with
      | none => withSuffix m.url ext
      | some sp => withSuffix (sp ++ "/" ++ m.url) ext
    | none => f.serverRelativeUrl.drop 1
  { standard_config := std, config := cfg, file := f, meta := meta, ext := ext,
    download_dir := std.download_dir ++ "/" ++ pathParent parent,
    download_filepath := std.download_dir ++ "/" ++ parent,
    output_dir := std.output_dir ++ "/" ++ pathParent parent,
    output_filepath := std.output_dir ++ "/" ++ (parent.dropRight ext.length ++ ".json") }

/-- Error message raised at source lines 55 to 58 (the source joins the
non-`None` keys of `EXT_TO_FILETYPE` with `", "`). -/
def extNotSupportedMsg : String :=
  "Extension not supported. Value MUST be one of " ++
    String.intercalate ", " (EXT_TO_FILETYPE.filterMap id) ++ "."

/-- Embedding of constructing a `SharepointIngestDoc`, including
`__post_init__` (source lines 49 to 59): assign the extension, reject an empty
extension, reject an extension outside `EXT_TO_FILETYPE`, then set the
download and output paths. -/
def mkSharepointIngestDoc (std : StandardConnectorConfig) (cfg : SimpleSharepointConfig)
    (f : File) (meta : Option PageMeta) : Except String SharepointIngestDoc :=
  if docExt f meta = "" then Except.error "Unsupported file without extension."
  else if ¬ (some (docExt f meta) ∈ EXT_TO_FILETYPE) then Except.error extNotSupportedMsg
  else Except.ok (setDownloadPaths std cfg f meta (docExt f meta))

/-- `SharepointIngestDoc.filename` (source lines 79 to 81): the resolved
download filepath. -/
def SharepointIngestDoc.filename (d : SharepointIngestDoc) : String := d.download_filepath

/-- Log lines emitted through the `logger` module. -/
inductive LogEntry where
  | info (msg : String)
  | debug (msg : String)
  | error (msg : String)
deriving DecidableEq, Repr

/-- A SharePoint folder as the expanded listing of source line 182 returns it:
its immediate `Files` and its immediate `Folders`. -/
inductive Folder where
  | mk (files : List File) (folders : List Folder)

/-- The `Files` of a folder listing. -/
def Folder.files : Folder → List File
  | .mk fs _ => fs

/-- The `Folders` of a folder listing. -/
def Folder.folders : Folder → List Folder
  | .mk _ sub => sub

/-- Source line 187 reads `self._list_objects`.  No method of that name is
defined on `SharepointConnector`, and its bases `ConnectorCleanupMixin` and
`BaseConnector` are the generic connector interface of
`unstructured/ingest/interfaces.py`, which holds no SharePoint folder walker
(the call site passes a SharePoint folder object, which the generic interface
could not consume; the method with that signature in this class is
`_list_files`, source line 181).  In Python the attribute lookup therefore
raises `AttributeError` before any call is made; this definition embeds that
lookup. -/
def _list_objects : Except String (Folder → Bool → Except String (List File)) :=
  Except.error "AttributeError: SharepointConnector object has no attribute _list_objects"

/-- Embedding of `SharepointConnector._list_files` (source lines 181 to 188):
take the files at the immediate level; when `recursive` is false return them;
otherwise iterate over the subfolders, extending the list with the result of
`self._list_objects(f, recursive)` — whose attribute lookup raises. -/
def _list_files (root : Folder) (recursive : Bool) : Except String (List File) :=
  let files := root.files
  if !recursive then Except.ok files
  else
    root.folders.foldlM (fun acc f => do
      let listObjects ← _list_objects
      let more ← listObjects f recursive
      pure (acc ++ more)) files

/-- One entry of the `site_pages.pages` listing read by `_list_pages`:
its `Url` property, `page_meta.get_property("Url", None)` (source line 195). -/
structure PageListItem where
  url : Option String
deriving DecidableEq, Repr

/-- `site_client.web.get_file_by_server_relative_path(page_url)`
(source line 200): the file object for a server-relative path. -/
def get_file_by_server_relative_path (p : String) : File :=
  { name := pathName p, serverRelativeUrl := p, size := 0 }

/-- The characters after the first occurrence of `"://"`, or `none` when the
string has no such occurrence. -/
def afterSchemeChars : List Char → Option (List Char)
  | [] => none
  | c :: rest =>
    if c == ':' then
      match rest with
      | s1 :: s2 :: r2 =>
        if s1 == '/' ∧ s2 == '/' then some r2 else afterSchemeChars rest
      | _ => afterSchemeChars rest
    else afterSchemeChars rest

/-- The `path` component of `urllib.parse.urlparse`: with a scheme present,
everything from the first slash after the host (empty when there is none);
without a scheme the whole string parses as the path. -/
def urlPath (u : String) : String :=
  match afterSchemeChars u.data with
  | some r =>
    match splitOnChar '/' (String.mk r) with
    | [] => ""
    | [_] => ""
    | _ :: t => "/" ++ String.intercalate "/" t
  | none => u

/-- Whether the first character of a string is `c`.  The source tests
`page_url[0] != "/"`; on the empty string Python would raise `IndexError`
while this embedding reads `false` (a present `Url` property is a non-empty
server-relative path, so the two agree on every reachable input). -/
def headIs (s : String) (c : Char) : Bool :=
  match s.data with
  | [] => false
  | c0 :: _ => c0 == c

/-- The pair appended for one page (source lines 199 to 206): the file object
for the slash-normalized url together with the meta dict. -/
def pageEntry (base_url : String) (u : String) : File × PageMeta :=
  let page_url := if !(headIs u '/') then "/" ++ u else u
  let spath := urlPath base_url
  let site_path := if spath ≠ "" ∧ spath ≠ "/" then some (spath.drop 1) else none
  (get_file_by_server_relative_path page_url, { url := u, site_path := site_path })

/-- The `for page_meta in pages` loop of `_list_pages` (source lines 194 to
206): a page with no `Url` property logs and `break`s, ending the whole loop;
otherwise its entry is appended and the loop continues. -/
def listPagesGo (base_url : String) : List PageListItem → List LogEntry × List (File × PageMeta)
  | [] => ([], [])
  | p :: rest =>
    match p.url with
    | none => ([LogEntry.info "Missing site_url. Omitting page... "], [])
    | some u =>
      let r := listPagesGo base_url rest
      (r.1, pageEntry base_url u :: r.2)

/-- Embedding of `SharepointConnector._list_pages` (source lines 190 to 208),
given the `site_pages.pages` listing of the site client; returns the emitted
log lines and the collected `pfiles`. -/
def _list_pages (base_url : String) (pages : List PageListItem) :
    List LogEntry × List (File × PageMeta) :=
  listPagesGo base_url pages

/-- The site client state that `_ingest_site_docs` consults: its `base_url`,
whether `select("Exists")` on the folder at `config.path` reports the folder as
existing, the folder listing that walking that folder returns, and the
`site_pages.pages` listing. -/
structure SiteClient where
  base_url : String
  rootFolderExists : Bool
  rootFolder : Folder
  sitePages : List PageListItem

/-- Embedding of `SharepointConnector._ingest_site_docs` (source lines 213 to
230), with `self.config` passed explicitly.  Note the branch at source line
215: the site is skipped (with a log line claiming the folder does not exist)
exactly when `Exists` reports `True`, and the folder is walked exactly when
`Exists` reports `False`. -/
def _ingest_site_docs (std : StandardConnectorConfig) (cfg : SimpleSharepointConfig)
    (sc : SiteClient) : List LogEntry × Except String (List SharepointIngestDoc) :=
  if sc.rootFolderExists then
    ([LogEntry.info ("Folder " ++ cfg.path ++ " does not exist. Skipping site " ++ sc.base_url)],
     Except.ok [])
  else
    match _list_files sc.rootFolder cfg.recursive with
    | Except.error e => ([], Except.error e)
    | Except.ok files =>
      match files.mapM (fun f => mkSharepointIngestDoc std cfg f none) with
      | Except.error e => ([], Except.error e)
      | Except.ok output =>
        if cfg.process_pages then
          let pl := _list_pages sc.base_url sc.sitePages
          match pl.2.mapM (fun pf => mkSharepointIngestDoc std cfg pf.1 (some pf.2)) with
          | Except.error e => (pl.1, Except.error e)
          | Except.ok page_output => (pl.1, Except.ok (output ++ page_output))
        else ([], Except.ok output)

/-- Embedding of `html.unescape` (Python standard library, used at source line
98) restricted to the basic named entities; no claim depends on its value. -/
def unescape (s : String) : String :=
  ((((s.replace "&lt;" "<").replace "&gt;" ">").replace "&quot;" "\u0022").replace
    "&#39;" "\u0027").replace "&amp;" "&"

/-- Whether to download in one call or in bounded chunks (source lines 126 to
132): `download_session(..., chunk_size=1024 * 1024 * 100)` versus
`download`. -/
inductive DownloadMode where
  | chunked
  | single
deriving DecidableEq, Repr

/-- Oracle describing what each external call inside `_get_file` / `_get_page`
would do: for every fallible step, `some e` means the step raises the
exception `e` and `none` means it succeeds.
* `mkdirOutputExc`: `self.output_dir.mkdir(...)` (source lines 105, 120);
* `downloadDirIsDir`: `self.download_dir.is_dir()` (source lines 106, 122);
* `mkdirDownloadExc`: `self.download_dir.mkdir(...)` (source lines 108, 124);
* `openExc`: `self.filename.open(...)` (source lines 109, 128, 131);
* `transferExc`: the transfer into the open file — `f.write(pld)` (source line
  110), `download_session(...).execute_query()` (source line 129) or
  `download(f).execute_query()` (source line 132);
* `payload`: the bytes the source serves when a file transfer succeeds;
* `pageFetchExc`: `listItemAllFields.select(...).get().execute_query()`
  (source line 93);
* `layoutWebpartsContent`, `canvasContent`: the two properties read at source
  lines 94 to 96 (`none` embeds an absent or `None` property, which the
  source maps to `""` via the default and `or ""`). -/
structure SdkOracle where
  mkdirOutputExc : Option String := none
  downloadDirIsDir : Bool := true
  mkdirDownloadExc : Option String := none
  openExc : Option String := none
  transferExc : Option String := none
  payload : String := ""
  pageFetchExc : Option String := none
  layoutWebpartsContent : Option String := none
  canvasContent : Option String := none
deriving DecidableEq, Repr

/-- Observable outcome of one `get_file` call:
* `logs`: the log lines emitted;
* `networkCalls`: how many transfer calls reached the source (the download or
  page-content request);
* `mode`: which download call `_get_file` issued, when one was issued;
* `content`: the content at `download_filepath` after the call, given that
  `cache` was the content before it (`none` = no file); opening for write
  truncates, so a transfer that raises after a successful open leaves an empty
  file;
* `caught`: the exception the `except` branch caught, if any.  The embedded
  functions are total: an exception inside the `try` block never escapes. -/
structure FetchTrace where
  logs : List LogEntry
  networkCalls : Nat
  mode : Option DownloadMode
  content : Option String
  caught : Option String
deriving DecidableEq, Repr

/-- The two log lines of the `except` branches (source lines 111 to 113 and
133 to 135). -/
def errorLogs (fn e : String) : List LogEntry :=
  [LogEntry.error ("Error while downloading and saving file: " ++ fn ++ "."),
   LogEntry.error e]

/-- Embedding of `SharepointIngestDoc._get_file` (source lines 117 to 137):
read the size property, create the output directory, create the download
directory when absent, then download — in chunks when the size exceeds
`MAX_MB_SIZE`, in a single call otherwise.  Any exception is caught, the two
error lines are logged, and the method returns. -/
def _get_file (doc : SharepointIngestDoc) (cache : Option String) (o : SdkOracle) : FetchTrace :=
  let fn := doc.filename
  let fsize := doc.file.size
  match o.mkdirOutputExc with
  | some e =>
    { logs := errorLogs fn e, networkCalls := 0, mode := none, content := cache,
      caught := some e }
  | none =>
    let preLogs : List LogEntry :=
      if o.downloadDirIsDir then []
      else [LogEntry.debug ("Creating directory: " ++ doc.download_dir)]
    match (if o.downloadDirIsDir then none else o.mkdirDownloadExc) with
    | some e =>
      { logs := preLogs ++ errorLogs fn e, networkCalls := 0, mode := none,
        content := cache, caught := some e }
    | none =>
      let sizeLogs : List LogEntry :=
        if fsize > MAX_MB_SIZE then
          [LogEntry.info ("Downloading file with size: " ++ toString fsize ++ " bytes in chunks")]
        else []
      match o.openExc with
      | some e =>
        { logs := preLogs ++ sizeLogs ++ errorLogs fn e, networkCalls := 0, mode := none,
          content := cache, caught := some e }
      | none =>
        let m := if fsize > MAX_MB_SIZE then DownloadMode.chunked else DownloadMode.single
        match o.transferExc with
        | some e =>
          { logs := preLogs ++ sizeLogs ++ errorLogs fn e, networkCalls := 1, mode := some m,
            content := some "", caught := some e }
        | none =>
          { logs := preLogs ++ sizeLogs ++ [LogEntry.info ("File downloaded: " ++ fn)],
            networkCalls := 1, mode := some m, content := some o.payload, caught := none }

/-- `self.meta["url"]` as `_get_page` reads it (source line 101); `_get_page`
is only dispatched to when `meta` is not `None` (source lines 142 to 145). -/
def SharepointIngestDoc.metaUrl (d : SharepointIngestDoc) : String :=
  match d.meta with
  | some m => m.url
  | none => ""

/-- Embedding of `SharepointIngestDoc._get_page` (source lines 87 to 115):
request the two content properties, assemble the payload (falling back to
`"<div></div>"` with an info log when both are empty), create the directories,
then write the payload.  Any exception is caught, the two error lines are
logged, and the method returns. -/
def _get_page (doc : SharepointIngestDoc) (cache : Option String) (o : SdkOracle) : FetchTrace :=
  let fn := doc.filename
  match o.pageFetchExc with
  | some e =>
    { logs := errorLogs fn e, networkCalls := 1, mode := none, content := cache,
      caught := some e }
  | none =>
    let pld0 := (o.layoutWebpartsContent.getD "") ++ (o.canvasContent.getD "")
    let emptyLogs : List LogEntry :=
      if pld0 ≠ "" then []
      else [LogEntry.info ("Page " ++ doc.metaUrl ++
        " as it has no retrievable content. Dumping empty doc.")]
    let pld := if pld0 ≠ "" then unescape pld0 else "<div></div>"
    match o.mkdirOutputExc with
    | some e =>
      { logs := emptyLogs ++ errorLogs fn e, networkCalls := 1, mode := none,
        content := cache, caught := some e }
    | none =>
      let preLogs : List LogEntry :=
        if o.downloadDirIsDir then []
        else [LogEntry.debug ("Creating directory: " ++ doc.download_dir)]
      match (if o.downloadDirIsDir then none else o.mkdirDownloadExc) with
      | some e =>
        { logs := emptyLogs ++ preLogs ++ errorLogs fn e, networkCalls := 1, mode := none,
          content := cache, caught := some e }
      | none =>
        match o.openExc with
        | some e =>
          { logs := emptyLogs ++ preLogs ++ errorLogs fn e, networkCalls := 1, mode := none,
            content := cache, caught := some e }
        | none =>
          match o.transferExc with
          | some e =>
            { logs := emptyLogs ++ preLogs ++ errorLogs fn e, networkCalls := 1, mode := none,
              content := some "", caught := some e }
          | none =>
            { logs := emptyLogs ++ preLogs ++ [LogEntry.info ("File downloaded: " ++ fn)],
              networkCalls := 1, mode := none, content := some pld, caught := none }

/-- Python truthiness of the cache check: the file at `download_path` exists
and is non-empty. -/
def cacheNonEmpty : Option String → Bool
  | some s => s != ""
  | none => false

/-- Embedding of `SharepointIngestDoc.get_file` (source lines 139 to 146).
The outermost decorator `BaseIngestDoc.skip_if_file_exists` is defined in
`unstructured/ingest/interfaces.py`, which is not under `src/`.
Modelled from the spec: section 4.2, "before fetching, check whether
`download_path` exists and is non-empty; if so, transition directly to
`Downloaded` and return without contacting the source", and section 3, the
skip is logged.  When the cache check fails, the body dispatches on `meta`
(source lines 142 to 145): `_get_file` for a file record, `_get_page` for a
page record.  (`requires_dependencies(["office365"])` is inside the skip
decorator and is taken as satisfied.) -/
def get_file (doc : SharepointIngestDoc) (cache : Option String) (o : SdkOracle) : FetchTrace :=
  if cacheNonEmpty cache then
    { logs := [LogEntry.info ("File exists: " ++ doc.filename ++ ", skipping download")],
      networkCalls := 0, mode := none, content := cache, caught := none }
  else
    match doc.meta with
    | none => _get_file doc cache o
    | some _ => _get_page doc cache o

/-- Modelled from the spec: the document-record lifecycle state of section 3
(`Discovered → Downloaded → ...`, `Failed(stage, reason)`), which is
maintained by pipeline code that is not under `src/`. -/
inductive RecordState where
  | discovered
  | downloaded
  | failed (stage : String) (reason : String)
deriving DecidableEq, Repr

/-- Outcome of running the Downloader stage on one record: the fetch trace and
the resulting record state. -/
structure RecordOutcome where
  trace : FetchTrace
  state : RecordState
deriving DecidableEq, Repr

/-- Modelled from the spec: running the Downloader stage on one record
(section 4.2) — invoke `get_file`; a fetch whose `try` block raised leaves the
record `Failed(download, reason)`, a completed or skipped fetch leaves it
`Downloaded`.  The state bookkeeping is pipeline code not under `src/`; the
fetch itself is the embedded `get_file`. -/
def fetchRecord (doc : SharepointIngestDoc) (cache : Option String) (o : SdkOracle) :
    RecordOutcome :=
  let t := get_file doc cache o
  { trace := t,
    state := match t.caught with
      | some e => RecordState.failed "download" e
      | none => RecordState.downloaded }

/-- Running the Downloader stage over a batch, record by record. -/
def processBatch (batch : List (SharepointIngestDoc × Option String × SdkOracle)) :
    List RecordOutcome :=
  batch.map (fun r => fetchRecord r.1 r.2.1 r.2.2)

/-- A value in the click options mapping: flags are booleans, the other
options are strings. -/
inductive OptVal where
  | b (v : Bool)
  | s (v : String)
deriving DecidableEq, Repr

/-- The options declared on the dropbox command
(`unstructured/ingest/cli/cmds/dropbox.py`, source lines 15 to 34), with
dashes mapped to underscores as click passes them to the handler. -/
def dropboxDeclaredOptions : List String := ["recursive", "remote_url", "token"]

/-- The `**options` mapping click builds for an invocation of the dropbox
command: exactly the declared options. -/
def clickDropboxOptions (recursive : Bool) (remote_url token : String) :
    List (String × OptVal) :=
  [("recursive", OptVal.b recursive), ("remote_url", OptVal.s remote_url),
   ("token", OptVal.s token)]

/-- `options[k]`: a Python dict lookup, raising `KeyError` on a missing key. -/
def lookupOption (opts : List (String × OptVal)) (k : String) : Except String OptVal :=
  match opts.find? (fun e => e.1 == k) with
  | some e => Except.ok e.2
  | none => Except.error ("KeyError: " ++ k)

/-- Modelled from the spec: `run_init_checks` from
`unstructured/ingest/cli/common.py`, which is not under `src/`.  Per section 6
the CLI start-up fails only on configuration validation, so the check is
embedded as requiring the two required declared options to be present in the
mapping. -/
def run_init_checks (opts : List (String × OptVal)) : Except String Unit := do
  let _ ← lookupOption opts "remote_url"
  let _ ← lookupOption opts "token"
  pure ()

/-- Embedding of the dropbox handler body (source lines 35 to 56) up to and
including every read of the options mapping, in source order:
`run_init_checks`, then `options["verbose"]` (source line 37), then
`options["remote_url"]`, `options["recursive"]`, `options["token"]`.  The
downstream connector construction consumes the looked-up values and is beyond
the mapping reads this embedding tracks. -/
def dropbox (opts : List (String × OptVal)) : Except String (List (String × OptVal)) := do
  let _ ← run_init_checks opts
  let _ ← lookupOption opts "verbose"
  let _ ← lookupOption opts "remote_url"
  let _ ← lookupOption opts "recursive"
  let _ ← lookupOption opts "token"
  pure opts

/-! ### Concrete example inputs shared by the theorems below -/

/-- Example standard connector config. -/
def exStd : StandardConnectorConfig := { download_dir := "/downloads", output_dir := "/outputs" }

/-- Example connector config (all three mandatory values present). -/
def exCfg : SimpleSharepointConfig :=
  { client_id := "id", client_credential := "secret",
    site_url := "https://tenant.sharepoint.com/sites/s", path := "Shared Documents" }

/-- Example source file with a recognized extension. -/
def exFile : File :=
  { name := "a.txt", serverRelativeUrl := "/sites/s/Shared Documents/a.txt", size := 7 }

/-- Example source file inside a subfolder. -/
def exFileB : File :=
  { name := "b.txt", serverRelativeUrl := "/sites/s/Shared Documents/sub/b.txt", size := 3 }

/-- Example source file with an unrecognized extension. -/
def exBadFile : File :=
  { name := "file.xyz", serverRelativeUrl := "/sites/s/Shared Documents/file.xyz", size := 1 }

/-- The ingest doc built from `exFile`. -/
def exDoc : SharepointIngestDoc := setDownloadPaths exStd exCfg exFile none ".txt"

/-- Example folder tree `root/a.txt`, `root/sub/b.txt`. -/
def exTree : Folder := Folder.mk [exFile] [Folder.mk [exFileB] []]

/-- Example site client whose configured root folder reports `Exists = True`. -/
def exSiteExists : SiteClient :=
  { base_url := "https://tenant.sharepoint.com/sites/s", rootFolderExists := true,
    rootFolder := Folder.mk [exFile] [], sitePages := [] }

/-- Example site client whose configured root folder reports `Exists = False`. -/
def exSiteMissing : SiteClient :=
  { base_url := "https://tenant.sharepoint.com/sites/s", rootFolderExists := false,
    rootFolder := Folder.mk [exFile] [], sitePages := [] }

/-- Example oracle: every external call succeeds, the download directory does
not exist yet. -/
def exOracleOk : SdkOracle := { downloadDirIsDir := false, payload := "hello" }

/-- Example oracle: the transfer call raises `boom`. -/
def exOracleBoom : SdkOracle := { transferExc := some "boom" }

/-! ### Claim theorems -/

/-- Claim C1 (code_bug evaluation): the claim — and spec sections 8 and 9 —
say a configured root folder must exist to be processed: enumeration returns
the ingest documents of the site when the folder exists and skips the site
(returning the empty list) when it does not.  The code does the opposite: at a
site whose folder reports `Exists = True` it returns the empty list (logging,
contradictorily, that the folder does not exist), and it walks the folder
exactly when `Exists = False`. -/
theorem c1_ingest_site_docs_inverted_exists :
    _ingest_site_docs exStd exCfg exSiteExists =
      ([LogEntry.info
          "Folder Shared Documents does not exist. Skipping site https://tenant.sharepoint.com/sites/s"],
       Except.ok [])
  ∧ (_ingest_site_docs exStd exCfg exSiteMissing).2 = Except.ok [exDoc] :=
  ⟨rfl, by rfl⟩

/-- Claim C2 (code_bug evaluation): on the tree `root/a.txt`, `root/sub/b.txt`
the claim says listing with `recursive = false` returns only `a.txt` and
listing with `recursive = true` returns `a.txt` and `sub/b.txt`.  The
non-recursive listing is as claimed, but the recursive branch calls the
undefined method `self._list_objects` (source line 187), so the listing raises
`AttributeError` instead of returning the two files. -/
theorem c2_list_files_recursive_attribute_error :
    _list_files exTree false = Except.ok [exFile]
  ∧ _list_files exTree true =
      Except.error "AttributeError: SharepointConnector object has no attribute _list_objects" :=
  ⟨rfl, rfl⟩

/-- Claim C6 (counterexample): the claim says a fully constructed configuration
is immutable thereafter.  `SimpleSharepointConfig` is a plain, non-frozen
dataclass: construction with all three mandatory values succeeds, and a later
attribute assignment (`setattr_client_id`) succeeds and changes the observable
`client_id` from `"id"` to `"other"`, so the object is not immutable. -/
theorem c6_config_mutable_counterexample :
    mkSimpleSharepointConfig "id" "secret" "https://tenant.sharepoint.com/sites/s"
        "Shared Documents" false false false = Except.ok exCfg
  ∧ (setattr_client_id exCfg "other").client_id = "other"
  ∧ exCfg.client_id = "id" :=
  ⟨rfl, rfl, rfl⟩

/-- Boolean test for a failed construction. -/
def isErr : Except String SimpleSharepointConfig → Bool
  | Except.error _ => true
  | Except.ok _ => false

/-- Claim C6 (amended): constructing a `SimpleSharepointConfig` fails
immediately with the configuration error exactly when `client_id`,
`client_credential` or `site_url` is empty; otherwise construction succeeds
and the resulting object holds exactly the given values, so no partially valid
object is observable.  (Enforced immutability is dropped: the dataclass is not
frozen.) -/
theorem c6_config_validation_amended (a b c p : String) (pa pp r : Bool) :
    (isErr (mkSimpleSharepointConfig a b c p pa pp r) = true ↔ (a = "" ∨ b = "" ∨ c = ""))
  ∧ (∀ cfg, mkSimpleSharepointConfig a b c p pa pp r = Except.ok cfg →
      a ≠ "" ∧ b ≠ "" ∧ c ≠ "" ∧ cfg.client_id = a ∧ cfg.client_credential = b ∧
        cfg.site_url = c ∧ cfg.path = p) := by
  constructor
  · by_cases h : a = "" ∨ b = "" ∨ c = "" <;> simp [mkSimpleSharepointConfig, isErr, h]
  · intro cfg hcfg
    rw [mkSimpleSharepointConfig] at hcfg
    by_cases h : a = "" ∨ b = "" ∨ c = ""
    · rw [if_pos h] at hcfg
      exact Except.noConfusion hcfg
    · rw [if_neg h] at hcfg
      have hv := Except.ok.inj hcfg
      push_neg at h
      refine ⟨h.1, h.2.1, h.2.2, ?_, ?_, ?_, ?_⟩ <;> rw [← hv]

/-- Witness for `c6_config_validation_amended` at concrete inputs: an empty
`client_id` makes construction fail, and a complete construction yields the
given field values. -/
theorem c6_config_validation_amended_witness :
    isErr (mkSimpleSharepointConfig "" "secret" "https://u" "p" false false false) = true :=
  (c6_config_validation_amended "" "secret" "https://u" "p" false false false).1.mpr
    (Or.inl rfl)

/-- Claim C10: for every invocation of the dropbox command with exactly its
declared options, the click mapping has exactly the keys `recursive`,
`remote_url`, `token`; the key `verbose` is not among them; the initial checks
pass; and the handler then reaches the lookup `options["verbose"]`, which
fails with `KeyError` because the key is undeclared. -/
theorem c10_dropbox_reads_undeclared_verbose (r : Bool) (u t : String) :
    (clickDropboxOptions r u t).map Prod.fst = dropboxDeclaredOptions
  ∧ "verbose" ∉ dropboxDeclaredOptions
  ∧ run_init_checks (clickDropboxOptions r u t) = Except.ok ()
  ∧ dropbox (clickDropboxOptions r u t) = Except.error "KeyError: verbose" :=
  ⟨rfl, by decide, rfl, rfl⟩

/-- Claim C3: for a record whose download path holds a non-empty cached file,
`get_file` is a no-op skip — no network call is made, the content at the
download path is unchanged, and the record transitions to `Downloaded`. -/
theorem c3_get_file_cached_skip (doc : SharepointIngestDoc) (cache : Option String)
    (o : SdkOracle) (h : cacheNonEmpty cache = true) :
    (get_file doc cache o).networkCalls = 0
  ∧ (get_file doc cache o).content = cache
  ∧ (fetchRecord doc cache o).state = RecordState.downloaded := by
  simp [get_file, fetchRecord, h]

/-- Witness for `c3_get_file_cached_skip`: a concrete cached record, with an
oracle whose transfer would raise — the skip never consults it. -/
theorem c3_get_file_cached_skip_witness :
    (get_file exDoc (some "data") exOracleBoom).networkCalls = 0
  ∧ (get_file exDoc (some "data") exOracleBoom).content = some "data"
  ∧ (fetchRecord exDoc (some "data") exOracleBoom).state = RecordState.downloaded :=
  c3_get_file_cached_skip exDoc (some "data") exOracleBoom rfl

/-- Claim C4: a file record (built with `meta = None`, as every file found by
the folder walk is) whose filename yields an empty extension, or an extension
outside `EXT_TO_FILETYPE`, fails construction at enumeration time with the
unsupported-filetype error, so no ingest document exists to reach the
Downloader stage. -/
theorem c4_unsupported_extension_rejected (std : StandardConnectorConfig)
    (cfg : SimpleSharepointConfig) (f : File)
    (h : joinedSuffixes f.name = "" ∨ some (joinedSuffixes f.name) ∉ EXT_TO_FILETYPE) :
    mkSharepointIngestDoc std cfg f none =
      Except.error (if joinedSuffixes f.name = "" then
        "Unsupported file without extension." else extNotSupportedMsg) := by
  have hext : docExt f none = joinedSuffixes f.name := rfl
  rw [mkSharepointIngestDoc, hext]
  rcases h with h | h
  · rw [if_pos h, if_pos h]
  · by_cases h0 : joinedSuffixes f.name = ""
    · rw [if_pos h0, if_pos h0]
    · rw [if_neg h0, if_pos h, if_neg h0]

/-- Witness for `c4_unsupported_extension_rejected`: the concrete file
`file.xyz`, whose extension `.xyz` is outside the recognized set. -/
theorem c4_unsupported_extension_rejected_witness :
    mkSharepointIngestDoc exStd exCfg exBadFile none = Except.error extNotSupportedMsg := by
  have h := c4_unsupported_extension_rejected exStd exCfg exBadFile (Or.inr (by decide))
  rwa [if_neg (by decide)] at h

/-- Claim C9: a page record (built with non-`None` meta) is always assigned
the extension `.html`, whatever the page name or url, so the
unsupported-extension rejection of `__post_init__` never fails for it:
construction succeeds. -/
theorem c9_page_records_html_ext (std : StandardConnectorConfig)
    (cfg : SimpleSharepointConfig) (f : File) (m : PageMeta) :
    mkSharepointIngestDoc std cfg f (some m) =
      Except.ok (setDownloadPaths std cfg f (some m) ".html")
  ∧ (setDownloadPaths std cfg f (some m) ".html").ext = ".html" := by
  constructor
  · have hext : docExt f (some m) = ".html" := rfl
    rw [mkSharepointIngestDoc, hext, if_neg (by decide), if_neg (by decide)]
  · rfl

/-- Claim C7: `_get_file` issues the chunked download call
(`download_session`) exactly when the size the source reports exceeds
`MAX_MB_SIZE = 512,000,000` bytes, and the single unchunked `download` call
exactly when the size is at or below the threshold.  The hypotheses keep the
steps before the download call from raising, so that a download call is
issued at all. -/
theorem c7_chunked_iff_over_threshold (doc : SharepointIngestDoc) (cache : Option String)
    (o : SdkOracle) (h1 : o.mkdirOutputExc = none)
    (h2 : o.downloadDirIsDir = false → o.mkdirDownloadExc = none)
    (h3 : o.openExc = none) :
    ((_get_file doc cache o).mode = some DownloadMode.chunked ↔ doc.file.size > MAX_MB_SIZE)
  ∧ ((_get_file doc cache o).mode = some DownloadMode.single ↔ doc.file.size ≤ MAX_MB_SIZE) := by
  have hmk : (if o.downloadDirIsDir then none else o.mkdirDownloadExc) = (none : Option String) := by
    cases hd : o.downloadDirIsDir with
    | true => simp
    | false => simp [h2 hd]
  have hmode : (_get_file doc cache o).mode =
      some (if doc.file.size > MAX_MB_SIZE then DownloadMode.chunked else DownloadMode.single) := by
    cases ht : o.transferExc <;> simp [_get_file, h1, hmk, h3, ht]
  rw [hmode]
  by_cases hs : doc.file.size > MAX_MB_SIZE
  · constructor <;> simp [hs]
  · constructor <;> simp [hs, Nat.le_of_not_lt hs]

/-- Witness for `c7_chunked_iff_over_threshold`: the concrete record of size
7 bytes with an all-success oracle downloads in a single call. -/
theorem c7_chunked_iff_over_threshold_witness :
    (_get_file exDoc none exOracleOk).mode = some DownloadMode.single :=
  (c7_chunked_iff_over_threshold exDoc none exOracleOk rfl (fun _ => rfl) rfl).2.mpr (by decide)

/-- Whatever exception the `try` block of `_get_file` raised, the `except`
branch catches it and logs the fixed error line and the exception text. -/
theorem getFileCaughtLogged (doc : SharepointIngestDoc) (cache : Option String)
    (o : SdkOracle) (e : String) (h : (_get_file doc cache o).caught = some e) :
    LogEntry.error e ∈ (_get_file doc cache o).logs
  ∧ LogEntry.error ("Error while downloading and saving file: " ++ doc.filename ++ ".") ∈
      (_get_file doc cache o).logs := by
  rcases o with ⟨mkO, isDir, mkD, opE, trE, pay, pgE, lw, cv⟩
  cases mkO <;> cases isDir <;> cases mkD <;> cases opE <;> cases trE <;>
    simp_all [_get_file, errorLogs]

/-- Whatever exception the `try` block of `_get_page` raised, the `except`
branch catches it and logs the fixed error line and the exception text. -/
theorem getPageCaughtLogged (doc : SharepointIngestDoc) (cache : Option String)
    (o : SdkOracle) (e : String) (h : (_get_page doc cache o).caught = some e) :
    LogEntry.error e ∈ (_get_page doc cache o).logs
  ∧ LogEntry.error ("Error while downloading and saving file: " ++ doc.filename ++ ".") ∈
      (_get_page doc cache o).logs := by
  rcases o with ⟨mkO, isDir, mkD, opE, trE, pay, pgE, lw, cv⟩
  cases pgE <;> cases mkO <;> cases isDir <;> cases mkD <;> cases opE <;> cases trE <;>
    simp_all [_get_page, errorLogs]

/-- Lifting of the two catch lemmas through the `get_file` dispatch. -/
theorem getFileDispatchCaughtLogged (doc : SharepointIngestDoc) (cache : Option String)
    (o : SdkOracle) (e : String) (h : (get_file doc cache o).caught = some e) :
    LogEntry.error e ∈ (get_file doc cache o).logs
  ∧ LogEntry.error ("Error while downloading and saving file: " ++ doc.filename ++ ".") ∈
      (get_file doc cache o).logs := by
  cases hc : cacheNonEmpty cache with
  | true => simp [get_file, hc] at h
  | false =>
    cases hm : doc.meta with
    | none =>
      simp only [get_file, hc, hm, Bool.false_eq_true, if_false] at h ⊢
      exact getFileCaughtLogged doc cache o e h
    | some m =>
      simp only [get_file, hc, hm, Bool.false_eq_true, if_false] at h ⊢
      exact getPageCaughtLogged doc cache o e h

/-- Claim C5: when a transfer error occurs during fetch — the `try` block of
`_get_file` or `_get_page` raises internally — the error is caught (the
embedded fetch is a total function: the call returns a trace instead of
propagating), both error lines are logged, and the record is marked
`Failed(download, error)`; and the outcome of any record of a batch depends
only on that record, so sibling records are unaffected. -/
theorem c5_fetch_error_caught_logged_isolated (doc : SharepointIngestDoc)
    (cache : Option String) (o : SdkOracle) (e : String) :
    ((get_file doc cache o).caught = some e →
      LogEntry.error e ∈ (get_file doc cache o).logs
      ∧ LogEntry.error ("Error while downloading and saving file: " ++ doc.filename ++ ".") ∈
          (get_file doc cache o).logs
      ∧ (fetchRecord doc cache o).state = RecordState.failed "download" e)
  ∧ (∀ batch : List (SharepointIngestDoc × Option String × SdkOracle), ∀ j : Nat,
      (processBatch batch)[j]? =
        batch[j]?.map fun r => fetchRecord r.1 r.2.1 r.2.2) := by
  constructor
  · intro h
    obtain ⟨h1, h2⟩ := getFileDispatchCaughtLogged doc cache o e h
    exact ⟨h1, h2, by simp [fetchRecord, h]⟩
  · intro batch j
    simp [processBatch, List.getElem?_map]

/-- Witness for `c5_fetch_error_caught_logged_isolated`: the concrete record
with an oracle whose download call raises `boom`. -/
theorem c5_fetch_error_caught_logged_isolated_witness :
    LogEntry.error "boom" ∈ (get_file exDoc none exOracleBoom).logs
  ∧ (fetchRecord exDoc none exOracleBoom).state = RecordState.failed "download" "boom" := by
  have h := (c5_fetch_error_caught_logged_isolated exDoc none exOracleBoom "boom").1 (by rfl)
  exact ⟨h.1, h.2.2⟩

/-- Claim C8: in `_list_pages`, a page whose listing entry has no `Url`
property ends the whole loop (`break`): the collected entries are exactly
those of the pages before it, so that page and every page after it are
omitted. -/
theorem c8_list_pages_stops_at_missing_url (base_url : String) (pre : List PageListItem)
    (bad : PageListItem) (post : List PageListItem)
    (hpre : ∀ p ∈ pre, p.url ≠ none) (hbad : bad.url = none) :
    (_list_pages base_url (pre ++ bad :: post)).2 = (_list_pages base_url pre).2
  ∧ (_list_pages base_url (pre ++ bad :: post)).2.length = pre.length := by
  induction pre with
  | nil => simp [_list_pages, listPagesGo, hbad]
  | cons p rest ih =>
    cases hu : p.url with
    | none => exact absurd hu (hpre p (List.mem_cons_self p rest))
    | some u =>
      obtain ⟨ih1, ih2⟩ := ih (fun q hq => hpre q (List.mem_cons_of_mem p hq))
      simp only [_list_pages] at ih1 ih2 ⊢
      constructor
      · simp only [List.cons_append, listPagesGo, hu]
        exact congrArg (fun l => pageEntry base_url u :: l) ih1
      · simp only [List.cons_append, listPagesGo, hu, List.length_cons]
        exact congrArg (fun n => n + 1) ih2

/-- Witness for `c8_list_pages_stops_at_missing_url`: a concrete listing of
three pages whose middle entry has no `Url`; only the first page is
collected. -/
theorem c8_list_pages_stops_at_missing_url_witness :
    (_list_pages "https://t.sharepoint.com/sites/s"
        ([{ url := some "SitePages/a.aspx" }] ++ { url := none } ::
          [{ url := some "SitePages/b.aspx" }])).2 =
      (_list_pages "https://t.sharepoint.com/sites/s" [{ url := some "SitePages/a.aspx" }]).2
  ∧ (_list_pages "https://t.sharepoint.com/sites/s"
        ([{ url := some "SitePages/a.aspx" }] ++ { url := none } ::
          [{ url := some "SitePages/b.aspx" }])).2.length = 1 :=
  c8_list_pages_stops_at_missing_url "https://t.sharepoint.com/sites/s"
    [{ url := some "SitePages/a.aspx" }] { url := none } [{ url := some "SitePages/b.aspx" }]
    (by decide) rfl

end Unstructured
